import Mathlib

/-!
Verification of the conversation-orchestration core of the `aquarius` repository.

The development shallowly embeds the routing, classification, tool-gating and
facade control flow of `src/app/agent/` (current generation) and `src/app/agent/agent.py`
(legacy generation).  External effects (the language model, the MCP subprocess,
`subprocess.run`) are abstracted as explicit outcome parameters; every Python
function that can raise is embedded as an `Except`-valued function.
-/

/-! ## Python string primitives -/

/-- Python whitespace characters recognised by `str.strip` / `str.split`
(space, tab, newline, carriage return, vertical tab, form feed). -/
def pyIsSpace (c : Char) : Bool :=
  c == ' ' || c == '\t' || c == '\n' || c == '\r' ||
    c == Char.ofNat 11 || c == Char.ofNat 12

/-- Python `str.strip()`: remove leading and trailing whitespace. -/
def pyStrip (s : String) : String :=
  ((s.toList.dropWhile pyIsSpace).reverse.dropWhile pyIsSpace).reverse.asString

/-- Python `str.startswith(pre)`. -/
def pyStartswith (s pre : String) : Bool :=
  pre.toList.isPrefixOf s.toList

/-- Helper for the Python `in` operator on strings: does `needle` occur as a
contiguous run inside the character list? -/
def charsContain (needle : List Char) : List Char → Bool
  | [] => needle.isEmpty
  | c :: rest => needle.isPrefixOf (c :: rest) || charsContain needle rest

/-- Python `needle in hay` for strings. -/
def strContains (hay needle : String) : Bool :=
  charsContain needle.toList hay.toList

/-- Python `str.lower()`. -/
def pyLower (s : String) : String :=
  (s.toList.map Char.toLower).asString

/-- Helper for Python `str.split()` (no argument): accumulate maximal runs of
non-whitespace characters. -/
def pySplitChars : List Char → List Char → List (List Char)
  | [], cur => if cur.isEmpty then [] else [cur.reverse]
  | c :: cs, cur =>
    if pyIsSpace c then
      if cur.isEmpty then pySplitChars cs [] else cur.reverse :: pySplitChars cs []
    else pySplitChars cs (c :: cur)

/-- Python `str.split()` with no argument: split on whitespace runs, dropping
empty fields. -/
def pySplit (s : String) : List String :=
  (pySplitChars s.toList []).map List.asString

/-! ## Conversation messages

`langchain` message objects are embedded as a role tag plus content;
`isinstance(m, HumanMessage)` becomes `m.role = Role.human`, and similarly for
`AIMessage`, `SystemMessage` and `ToolMessage`. -/

inductive Role where
  | human
  | ai
  | system
  | tool
deriving DecidableEq, Repr

structure Msg where
  role : Role
  content : String
deriving DecidableEq, Repr

/-! ## graph.py — the configuration-driven router (`intent_router`)

Embeds `src/app/agent/graph.py` lines 150-182.  The intent classifier call
`nodes.detect_intent` is a parameter `detect`; the router result carries, next
to the chosen node name, the list of inputs on which the classifier was
invoked, so that "the classifier was not called" is expressible.  Accessing
`state["messages"][-1]` on an empty list raises `IndexError`, hence the
`Except` result. -/

/-- Configuration data read by the router: `intent_to_node_mapping` (a dict,
embedded as an association list) and `fallback_node_name` (default "clarify"
already resolved). -/
structure RouterCfg where
  intentToNode : List (String × String)
  fallbackNode : String
deriving Repr

inductive PyErr where
  | indexError
  | typeError
deriving DecidableEq, Repr

namespace Graph

/-- The failure-marker phrase tested by `intent_router`. -/
def NOT_EQUIPPED : String := "I am not equipped to handle this task"

/-- graph.py lines 157-164: the last two messages form the pattern
(user message, assistant "not equipped" failure marker). -/
def toolFailure (messages : List Msg) (last : Msg) : Bool :=
  if messages.length > 1 then
    match messages.get? (messages.length - 2) with
    | some secondLast =>
      decide (secondLast.role = Role.human) && decide (last.role = Role.ai) &&
        strContains last.content NOT_EQUIPPED
    | none => false
  else false

/-- graph.py lines 150-182, `intent_router`.  Returns the target node name and
the list of arguments the intent classifier was invoked on. -/
def intent_router (cfg : RouterCfg) (detect : String → String)
    (messages : List Msg) : Except PyErr (String × List String) :=
  match messages.getLast? with
  | none => Except.error PyErr.indexError
  | some last =>
    if toolFailure messages last then Except.ok ("end", [])
    else if last.role = Role.ai then Except.ok ("end", [])
    else
      let t := pyStrip last.content
      let intent := detect t
      Except.ok ((List.lookup intent cfg.intentToNode).getD cfg.fallbackNode, [t])

end Graph

/-! ## agent.py — the legacy router (`choose_next_node`)

Embeds `src/app/agent/agent.py` lines 166-203.  Same instrumentation of the
classifier as for `intent_router`. -/

namespace Agent

/-- agent.py lines 166-203, `choose_next_node`. -/
def choose_next_node (detect : String → String) (messages : List Msg) :
    String × List String :=
  match messages.getLast? with
  | none => ("chatbot", [])
  | some last =>
    if last.role = Role.ai then ("end_node", [])
    else
      let lastContent := pyStrip last.content
      if lastContent = "" then ("chatbot", [])
      else
        let intent := detect lastContent
        if intent = "search" then ("search_node", [lastContent])
        else if intent = "code" then ("code_node", [lastContent])
        else if intent = "chit_chat" then ("chatbot", [lastContent])
        else ("chatbot", [lastContent])

/-- agent.py lines 61-71, `detect_intent`: the parsed JSON reply of the model
is embedded as an association list; the function returns
`response_data.get("intent", "other")` without any vocabulary validation. -/
def detect_intent (response_data : List (String × String)) : String :=
  (List.lookup "intent" response_data).getD "other"

end Agent

/-! ## Claims C1, C7, C8 — router behavior -/

/-- C1: for every state whose messages list is non-empty with an
assistant-authored last message, both generations of the router return their
terminal node name ("end" resp. "end_node"), independently of the message
content and of the classifier, and the classifier is invoked on no input. -/
theorem C1_assistant_last_routes_to_terminal :
    ∀ (cfg : RouterCfg) (detect : String → String) (msgs : List Msg) (c : String),
      Graph.intent_router cfg detect (msgs ++ [⟨Role.ai, c⟩]) = Except.ok ("end", [])
      ∧ Agent.choose_next_node detect (msgs ++ [⟨Role.ai, c⟩]) = ("end_node", []) := by
  intro cfg detect msgs c
  constructor
  · unfold Graph.intent_router
    rw [List.getLast?_concat]
    by_cases h : Graph.toolFailure (msgs ++ [⟨Role.ai, c⟩]) ⟨Role.ai, c⟩ <;> simp [h]
  · unfold Agent.choose_next_node
    rw [List.getLast?_concat]
    simp

/-- C7 counterexample: the current router `intent_router` applied to the
empty-messages state raises an `IndexError` (from `state["messages"][-1]`)
instead of returning the chat node. -/
theorem C7_counterexample_empty_messages_raises :
    Graph.intent_router ⟨[("chit_chat", "chatbot")], "clarify"⟩
        (fun _ => "chit_chat") [] = Except.error PyErr.indexError := by
  rfl

/-- C7 amended: on an empty messages list, the legacy router
`choose_next_node` returns the default chat node "chatbot" without invoking
the classifier, while the current router `intent_router` raises an
`IndexError`; the latter is only ever invoked after the incoming user message
has been appended, so its messages list is never empty in execution. -/
theorem C7_amended_empty_messages :
    ∀ (cfg : RouterCfg) (detect : String → String),
      Agent.choose_next_node detect [] = ("chatbot", [])
      ∧ Graph.intent_router cfg detect [] = Except.error PyErr.indexError := by
  intro cfg detect
  exact ⟨rfl, rfl⟩

/-- C8 counterexample: on a state whose last message is a user message with
whitespace-only content, the current router `intent_router` does invoke the
classifier (on the stripped, empty string) and routes through the configured
mapping — here to "react_mcp", not to the chat node. -/
theorem C8_counterexample_whitespace_calls_classifier :
    Graph.intent_router ⟨[("chit_chat", "chatbot"), ("mcp_task", "react_mcp")], "clarify"⟩
        (fun _ => "mcp_task") [⟨Role.human, "   "⟩] =
      Except.ok ("react_mcp", [""]) := by
  rfl

/-- C8 amended: the legacy router `choose_next_node` shortcuts empty or
whitespace-only user content to the chat node without invoking the classifier
and otherwise invokes the classifier exactly once on the trimmed content; the
current router `intent_router` invokes the classifier on the trimmed content
of every last user message — including whitespace-only content, on which it
passes the empty string — and routes via the configured mapping. -/
theorem C8_amended_whitespace_shortcut :
    ∀ (cfg : RouterCfg) (detect : String → String) (msgs : List Msg) (c : String),
      ((Agent.choose_next_node detect (msgs ++ [⟨Role.human, c⟩])).2 =
        if pyStrip c = "" then [] else [pyStrip c])
      ∧ (pyStrip c = "" →
          Agent.choose_next_node detect (msgs ++ [⟨Role.human, c⟩]) = ("chatbot", []))
      ∧ Except.map Prod.snd
          (Graph.intent_router cfg detect (msgs ++ [⟨Role.human, c⟩])) =
          Except.ok [pyStrip c] := by
  intro cfg detect msgs c
  refine ⟨?_, ?_, ?_⟩
  · unfold Agent.choose_next_node
    rw [List.getLast?_concat]
    by_cases h : pyStrip c = ""
    · simp [h]
    · simp [h, apply_ite Prod.snd]
  · intro h
    unfold Agent.choose_next_node
    rw [List.getLast?_concat]
    simp [h]
  · unfold Graph.intent_router
    rw [List.getLast?_concat]
    have htf : Graph.toolFailure (msgs ++ [⟨Role.human, c⟩]) ⟨Role.human, c⟩ = false := by
      unfold Graph.toolFailure
      split
      · split <;> simp
      · rfl
    simp [htf, Except.map]

/-- C8 witness: the shortcut branch of the amended statement at a concrete
whitespace-only input. -/
theorem C8_amended_whitespace_shortcut_witness :
    Agent.choose_next_node (fun _ => "search") ([] ++ [⟨Role.human, "  "⟩]) =
      ("chatbot", []) :=
  (C8_amended_whitespace_shortcut ⟨[], "clarify"⟩ (fun _ => "search") [] "  ").2.1 (by decide)

/-! ## nodes.py — the configuration-driven intent classifier

Embeds `src/app/agent/nodes.py` lines 47-105, `Nodes.detect_intent`.  The
model call `self.model.invoke([HumanMessage(content=prompt)])` is abstracted
as an outcome value: the reply may be an `AIMessage`, another object carrying
a string `content`, something of an unexpected shape, or the call may raise. -/

inductive LlmReply where
  | aiMsg (content : String)
  | contentStr (content : String)
  | unexpected
  | raised
deriving DecidableEq, Repr

namespace Nodes

/-- nodes.py lines 47-105, `Nodes.detect_intent`. -/
def detect_intent (cfg : RouterCfg) (reply : LlmReply) : String :=
  let availableIntents := cfg.intentToNode.map Prod.fst
  let fallbackIntent := cfg.fallbackNode
  if availableIntents.isEmpty then fallbackIntent
  else
    match reply with
    | LlmReply.raised => fallbackIntent
    | r =>
      let detected :=
        match r with
        | LlmReply.aiMsg c => pyStrip c
        | LlmReply.contentStr c => pyStrip c
        | _ => fallbackIntent
      if detected ∈ availableIntents ∨ detected = fallbackIntent then detected
      else fallbackIntent

end Nodes

/-! ## Claim C6 — classifier vocabulary closure -/

/-- C6 counterexample: the legacy classifier `detect_intent` of agent.py
performs no vocabulary validation; when the model answers
`{"intent": "banana"}` it returns "banana", a label neither in its prompted
vocabulary nor equal to its fallback "other". -/
theorem C6_counterexample_legacy_classifier_unvalidated :
    Agent.detect_intent [("intent", "banana")] = "banana"
    ∧ "banana" ∉ ["chit_chat", "search", "code", "other"] := by
  exact ⟨rfl, by decide⟩

/-- C6 amended: the configuration-driven classifier `Nodes.detect_intent`
always returns the configured fallback label or a label of the configured
vocabulary — unknown labels are coerced, and model failures or unexpected
reply shapes yield the fallback rather than raising.  The legacy classifier
of agent.py returns the model-supplied label unvalidated, but its router
`choose_next_node` confines every label to one of its four node names, so an
arbitrary label never escapes as a routing target. -/
theorem C6_amended_classifier_vocabulary :
    (∀ (cfg : RouterCfg) (reply : LlmReply),
      Nodes.detect_intent cfg reply = cfg.fallbackNode
      ∨ Nodes.detect_intent cfg reply ∈ cfg.intentToNode.map Prod.fst)
    ∧ ∀ (detect : String → String) (msgs : List Msg),
        (Agent.choose_next_node detect msgs).1 ∈
          ["chatbot", "end_node", "search_node", "code_node"] := by
  constructor
  · intro cfg reply
    unfold Nodes.detect_intent
    by_cases hempty : (cfg.intentToNode.map Prod.fst).isEmpty
    · simp [hempty]
    · cases reply with
      | aiMsg c =>
        by_cases hv : pyStrip c ∈ cfg.intentToNode.map Prod.fst ∨ pyStrip c = cfg.fallbackNode
        · simp only [hempty, if_false, if_pos hv]
          exact hv.elim (fun h => Or.inr h) (fun h => Or.inl h)
        · simp only [hempty, if_false, if_neg hv]
          exact Or.inl rfl
      | contentStr c =>
        by_cases hv : pyStrip c ∈ cfg.intentToNode.map Prod.fst ∨ pyStrip c = cfg.fallbackNode
        · simp only [hempty, if_false, if_pos hv]
          exact hv.elim (fun h => Or.inr h) (fun h => Or.inl h)
        · simp only [hempty, if_false, if_neg hv]
          exact Or.inl rfl
      | unexpected => simp [hempty]
      | raised => simp [hempty]
  · intro detect msgs
    unfold Agent.choose_next_node
    rcases hl : msgs.getLast? with _ | last
    · simp
    · by_cases hr : last.role = Role.ai
      · simp [hr]
      · by_cases hc : pyStrip last.content = ""
        · simp [hr, hc]
        · by_cases h1 : detect (pyStrip last.content) = "search"
          · simp [hr, hc, h1]
          · by_cases h2 : detect (pyStrip last.content) = "code"
            · simp [hr, hc, h1, h2]
            · by_cases h3 : detect (pyStrip last.content) = "chit_chat"
              · simp [hr, hc, h1, h2, h3]
              · simp [hr, hc, h1, h2, h3]

/-! ## tools/execution/terminal.py — command gating

Embeds `src/app/agent/tools/execution/terminal.py`.  `shlex.split` and
`subprocess.run` are abstracted as parameters (`shlex`, `run`); the function
body, including the branch structure of its exception handlers, follows the
source.  `command.split()[0]` on a whitespace-only command raises
`IndexError`, hence the `Except` result. -/

namespace Terminal

def COMMAND_ALLOW_LIST : List String := ["ls", "pwd", "git status", "echo"]

def COMMAND_DENY_LIST : List String := ["rm", "sudo"]

/-- terminal.py lines 20-35, `is_command_allowed`: deny prefixes are checked
first, then allow prefixes; anything else defaults to deny. -/
def is_command_allowed (command : String) : Bool :=
  if COMMAND_DENY_LIST.any (fun denied => pyStartswith command denied) then false
  else if COMMAND_ALLOW_LIST.any (fun allowed => pyStartswith command allowed) then true
  else false

/-- Outcome of `subprocess.run` on the split argument vector. -/
inductive SubprocResult where
  | completed (stdout stderr : String) (returncode : Int)
  | fileNotFound
  | timedOut
  | errored (e : String)
deriving DecidableEq, Repr

/-- terminal.py lines 37-77, `execute_terminal_command`. -/
def execute_terminal_command (shlex : String → List String)
    (run : List String → SubprocResult) (command : String) :
    Except PyErr (String × String × Int) :=
  if ¬ is_command_allowed command then
    if command = "" then
      Except.ok ("", "COMMAND_NOT_ALLOWED|" ++ "" ++ "|" ++ command, -1)
    else
      match (pySplit command).head? with
      | none => Except.error PyErr.indexError
      | some commandName =>
        Except.ok ("", "COMMAND_NOT_ALLOWED|" ++ commandName ++ "|" ++ command, -1)
  else
    let args := shlex command
    match run args with
    | SubprocResult.completed out err rc => Except.ok (out, err, rc)
    | SubprocResult.fileNotFound =>
      match args.head? with
      | none => Except.error PyErr.indexError
      | some a0 => Except.ok ("", "COMMAND_NOT_FOUND|" ++ a0 ++ "|" ++ command, -2)
    | SubprocResult.timedOut =>
      Except.ok ("", "COMMAND_TIMEOUT|" ++ command ++ "|30", -3)
    | SubprocResult.errored e =>
      Except.ok ("", "COMMAND_ERROR|" ++ command ++ "|" ++ e, -4)

end Terminal

/-! ## Claim C9 — deny precedence and the whitespace-only command -/

/-- C9: deny-listed and unlisted commands are refused with the structured
`COMMAND_NOT_ALLOWED` triple — but a disallowed command consisting solely of
whitespace is the failing input: `command.split()[0]` raises an `IndexError`
there instead of returning the documented triple (no subprocess is spawned on
either path: the result is reached before `run` is consulted). -/
theorem C9_disallowed_command_evaluation :
    Terminal.execute_terminal_command (fun s => [s])
        (fun _ => Terminal.SubprocResult.completed "" "" 0) " " =
      Except.error PyErr.indexError
    ∧ Terminal.is_command_allowed " " = false
    ∧ Terminal.execute_terminal_command (fun s => [s])
        (fun _ => Terminal.SubprocResult.completed "" "" 0) "rm -rf /" =
      Except.ok ("", "COMMAND_NOT_ALLOWED|rm|rm -rf /", -1)
    ∧ Terminal.is_command_allowed "sudo reboot" = false
    ∧ Terminal.is_command_allowed "myfantasycommand" = false
    ∧ Terminal.execute_terminal_command (fun s => [s])
        (fun _ => Terminal.SubprocResult.completed "" "" 0) "myfantasycommand" =
      Except.ok ("", "COMMAND_NOT_ALLOWED|myfantasycommand|myfantasycommand", -1) := by
  refine ⟨rfl, rfl, rfl, rfl, rfl, rfl⟩

/-! ## graph.py — the react_mcp wrapper and the bounded execution loop -/

namespace Graph

/-- The fallback reply emitted by `react_mcp_wrapped` when the sub-agent
produces no messages. -/
def NOT_EQUIPPED_REPLY : String :=
  "I am not equipped to handle this task with the functions at my disposal."

/-- Outcome of `orig_react_mcp.invoke` inside `react_mcp_wrapped`: the call
may raise, return a dict with a (possibly empty) messages list, or return a
non-dict value. -/
inductive SubAgentOutcome where
  | raised (e : String)
  | okDict (msgs : List Msg)
  | nonDict
deriving Repr

/-- graph.py lines 105-132, `react_mcp_wrapped`: the messages of the partial
state update it returns.  An exception from the sub-agent is converted to an
error assistant message; an empty or non-dict result is converted to the
deterministic "not equipped" fallback assistant message. -/
def react_mcp_wrapped (outcome : SubAgentOutcome) : List Msg :=
  match outcome with
  | SubAgentOutcome.raised e =>
    [⟨Role.ai, "Error processing request in react_mcp: " ++ e⟩]
  | SubAgentOutcome.okDict msgs =>
    if msgs.isEmpty then [⟨Role.ai, NOT_EQUIPPED_REPLY⟩] else msgs
  | SubAgentOutcome.nonDict => [⟨Role.ai, NOT_EQUIPPED_REPLY⟩]

/-- Modelled from the spec: the bounded graph-execution loop of section 4.1
("execute").  The loop engine itself is the graph runtime library and is not
part of the repository sources; per the spec it repeatedly evaluates the
router, executes the selected node, and stops at the terminal node "end" or
when the transition guard is exhausted, in which case the fallback assistant
message is appended.  Returns the final state and the number of node
transitions taken. -/
def executeLoop (router : List Msg → String)
    (applyNode : String → List Msg → List Msg) :
    Nat → List Msg → List Msg × Nat
  | 0, st => (st ++ [⟨Role.ai, NOT_EQUIPPED⟩], 0)
  | fuel + 1, st =>
    let node := router st
    let st2 := applyNode node st
    if node = "end" then (st2, 1)
    else
      match executeLoop router applyNode fuel st2 with
      | (final, k) => (final, k + 1)

end Graph

/-! ## Claim C2 — bounded execution and the fallback message -/

/-- C2 counterexample: when the sub-agent raises — which is how an exhausted
recursion guard inside the wrapped react agent surfaces in graph.py —
`react_mcp_wrapped` appends an "Error processing request in react_mcp: …"
assistant message that does not contain the claimed deterministic fallback
phrase "not equipped to handle this task". -/
theorem C2_counterexample_guard_exception_message :
    Graph.react_mcp_wrapped (Graph.SubAgentOutcome.raised "GraphRecursionError") =
      [⟨Role.ai, "Error processing request in react_mcp: GraphRecursionError"⟩]
    ∧ strContains "Error processing request in react_mcp: GraphRecursionError"
        "not equipped to handle this task" = false := by
  exact ⟨rfl, by decide⟩

/-- C2 amended: graph execution, modelled as the bounded loop of the spec, always
terminates within the configured maximum transition count for any router and
any nodes; the wrapped react_mcp node never raises and never yields an empty
update — a sub-agent exception becomes an error assistant message, and only
an empty (or non-dict) sub-agent result yields the deterministic fallback
assistant message containing "not equipped to handle this task", upon which
the router routes to the terminal node. -/
theorem C2_amended_bounded_execution :
    (∀ (router : List Msg → String) (applyNode : String → List Msg → List Msg)
       (fuel : Nat) (st : List Msg),
        (Graph.executeLoop router applyNode fuel st).2 ≤ fuel)
    ∧ (∀ outcome : Graph.SubAgentOutcome, Graph.react_mcp_wrapped outcome ≠ [])
    ∧ Graph.react_mcp_wrapped (Graph.SubAgentOutcome.okDict []) =
        [⟨Role.ai, Graph.NOT_EQUIPPED_REPLY⟩]
    ∧ strContains Graph.NOT_EQUIPPED_REPLY "not equipped to handle this task" = true
    ∧ (∀ (e : String), Graph.react_mcp_wrapped (Graph.SubAgentOutcome.raised e) =
        [⟨Role.ai, "Error processing request in react_mcp: " ++ e⟩])
    ∧ (∀ (cfg : RouterCfg) (detect : String → String) (msgs : List Msg),
        Graph.intent_router cfg detect (msgs ++ [⟨Role.ai, Graph.NOT_EQUIPPED_REPLY⟩]) =
          Except.ok ("end", [])) := by
  refine ⟨?_, ?_, rfl, by decide, fun e => rfl, ?_⟩
  · intro router applyNode fuel
    induction fuel with
    | zero => intro st; simp [Graph.executeLoop]
    | succ n ih =>
      intro st
      unfold Graph.executeLoop
      by_cases h : router st = "end"
      · simp [h]
      · simp only [h, if_neg, if_false]
        have := ih (applyNode (router st) st)
        cases hh : Graph.executeLoop router applyNode n (applyNode (router st) st) with
        | mk final k =>
          simp [hh] at this ⊢
          omega
  · intro outcome
    cases outcome with
    | raised e => simp [Graph.react_mcp_wrapped]
    | okDict msgs =>
      by_cases h : msgs.isEmpty
      · simp [Graph.react_mcp_wrapped, h]
      · simp [Graph.react_mcp_wrapped, h]
        exact fun hc => h (by simp [hc])
    | nonDict => simp [Graph.react_mcp_wrapped]
  · intro cfg detect msgs
    unfold Graph.intent_router
    rw [List.getLast?_concat]
    by_cases h : Graph.toolFailure (msgs ++ [⟨Role.ai, Graph.NOT_EQUIPPED_REPLY⟩])
        ⟨Role.ai, Graph.NOT_EQUIPPED_REPLY⟩ <;> simp [h]

/-! ## facade.py — AgentFacade.invoke

Embeds `src/app/agent/facade.py`.  The awaited external effects are an
environment of outcomes: basic initialization, per-request LLM client
creation, per-request MCP client creation, agent construction, agent
execution, the error-explanation model call, and MCP cleanup.  `invoke`
returns `Except Unit AgentResponse` — the `Except.error` case is a
propagating `asyncio.CancelledError` (a `BaseException`, untouched by the
`except Exception` handlers but still running the `finally` block) — together
with the trace of cleanup events, so that "cleanup runs exactly once" is
expressible. -/

structure AgentResponse where
  success : Bool
  message : String
  history : List (String × String)
deriving DecidableEq, Repr

namespace Facade

/-- A message of the agent-execution result: its `type` attribute, content,
whether it is an actual `AIMessage` instance, and its number of tool calls. -/
structure RMsg where
  type : String
  content : String
  aiInstance : Bool
  toolCalls : Nat
deriving DecidableEq, Repr

/-- Outcome of the awaited body of `_create_per_request_mcp_client`. -/
inductive McpOut where
  | noClient
  | ok (tools : List String)
  | timedOut
  | failed (e : String)
deriving DecidableEq, Repr

/-- Outcome of `_create_per_request_agent`. -/
inductive AgentOut where
  | built
  | buildFailed (e : String)
  | llmMissing
deriving DecidableEq, Repr

/-- Outcome of the awaited `agent.ainvoke` under `asyncio.wait_for`. -/
inductive RunOut where
  | ok (msgs : List RMsg)
  | badFormat
  | timedOut
  | raised (e : String)
  | cancelled
deriving DecidableEq, Repr

/-- Outcome of the model call inside `_generate_error_response`. -/
inductive ErrGen where
  | generated (s : String)
  | noLlm
  | raised
deriving DecidableEq, Repr

/-- Outcome of the awaited `mcp_manager.__aexit__` under `asyncio.wait_for`. -/
inductive CleanOut where
  | ok
  | timedOut
  | raised (e : String)
deriving DecidableEq, Repr

/-- The environment of external outcomes seen by one `invoke` call. -/
structure Env where
  initError : Option String
  llmOk : Bool
  mcp : McpOut
  agent : AgentOut
  run : RunOut
  errGen : ErrGen
  cleanup : CleanOut
deriving Repr

/-- Replace the cleanup outcome of an environment. -/
def setCleanup (env : Env) (c : CleanOut) : Env :=
  ⟨env.initError, env.llmOk, env.mcp, env.agent, env.run, env.errGen, c⟩

/-- facade.py lines 396-426, `_generate_error_response`: a fresh model call
explains the failure; if the fresh client cannot be created or the call
raises, a hardcoded message is chosen by searching "timeout" in the
lower-cased context. -/
def generateErrorResponse (env : Env) (errorContext : String) : String :=
  match env.errGen with
  | ErrGen.generated s => pyStrip s
  | ErrGen.noLlm =>
    if strContains (pyLower errorContext) "timeout" then
      "Request timed out. Please try again later or rephrase your question."
    else
      "I encountered a technical issue. Please try rephrasing your question or try again later."
  | ErrGen.raised =>
    if strContains (pyLower errorContext) "timeout" then
      "Request timed out. Please try again later or rephrase your question."
    else
      "I encountered a technical issue. Please try rephrasing your question or try again later."

/-- facade.py lines 59-106, `_create_per_request_mcp_client`: returns whether
the manager was acquired (non-`None`) and the tool list; a missing token or
client class, an initialization timeout, and any exception all yield
`(None, [])`. -/
def createPerRequestMcpClient (env : Env) : Bool × List String :=
  match env.mcp with
  | McpOut.noClient => (false, [])
  | McpOut.ok tools => (true, tools)
  | McpOut.timedOut => (false, [])
  | McpOut.failed _ => (false, [])

/-- Cleanup events recorded by `_cleanup_per_request_mcp`. -/
inductive Ev where
  | cleanupStart
  | cleanupOk
  | cleanupCancelled
  | cleanupErrorLogged
deriving DecidableEq, Repr

/-- facade.py lines 108-130, `_cleanup_per_request_mcp`: guarded by
`if mcp_manager:`; the `__aexit__` task is awaited under the `mcp_cleanup`
timeout; on timeout the task is cancelled and the `CancelledError` swallowed;
any other exception is logged.  The function always returns. -/
def cleanupPerRequestMcp (env : Env) (managerPresent : Bool) : List Ev :=
  if managerPresent then
    Ev.cleanupStart ::
      (match env.cleanup with
       | CleanOut.ok => [Ev.cleanupOk]
       | CleanOut.timedOut => [Ev.cleanupCancelled]
       | CleanOut.raised _ => [Ev.cleanupErrorLogged])
  else []

/-- The hardcoded agent-execution timeout reply of facade.py line 375. -/
def TIMEOUT_MESSAGE : String :=
  "Request timed out. Please try again later or rephrase your question."

/-- The default reply when no assistant message is found, facade.py line 342. -/
def NO_RESPONSE : String :=
  "I processed your request but couldn\x27t generate a response."

/-- facade.py lines 343-349: scan the result messages backward for the last
message that is an `AIMessage` instance or duck-typed with `type == "ai"` and
has truthy content. -/
def extractFinal (msgs : List RMsg) : String :=
  match msgs.reverse.find? (fun m => (m.aiInstance || m.type == "ai") && m.content != "") with
  | some m => m.content
  | none => NO_RESPONSE

/-- facade.py lines 352-358: serialize the result messages to (role, content)
pairs, annotating `AIMessage` instances that carry tool calls. -/
def toHistory (msgs : List RMsg) : List (String × String) :=
  msgs.map (fun m =>
    (m.type,
     m.content ++
       if m.aiInstance && decide (m.toolCalls > 0) then
         " [Used " ++ toString m.toolCalls ++ " tool(s)]"
       else ""))

/-- facade.py lines 254-394, `AgentFacade.invoke`: the response (or a
propagating cancellation) together with the cleanup-event trace of the
`finally` block. -/
def invoke (env : Env) (message : String) : Except Unit AgentResponse × List Ev :=
  match env.initError with
  | some e =>
    (Except.ok ⟨false, generateErrorResponse env ("Basic initialization failed: " ++ e),
      [("human", message)]⟩, [])
  | none =>
    if ¬ env.llmOk then
      (Except.ok ⟨false,
        generateErrorResponse env "LLM client could not be created for this request",
        [("human", message)]⟩, [])
    else
      let mcpRes := createPerRequestMcpClient env
      let fin := cleanupPerRequestMcp env mcpRes.1
      match env.agent with
      | AgentOut.buildFailed _ =>
        (Except.ok ⟨false,
          generateErrorResponse env "Agent could not be created for this request",
          [("human", message)]⟩, fin)
      | AgentOut.llmMissing =>
        (Except.ok ⟨false,
          generateErrorResponse env
            "Agent execution error: cannot unpack non-iterable NoneType object",
          [("human", message)]⟩, fin)
      | AgentOut.built =>
        match env.run with
        | RunOut.ok msgs =>
          (Except.ok ⟨true, extractFinal msgs, toHistory msgs⟩, fin)
        | RunOut.badFormat =>
          (Except.ok ⟨false,
            generateErrorResponse env "Agent returned unexpected result format",
            [("human", message)]⟩, fin)
        | RunOut.timedOut =>
          (Except.ok ⟨false, TIMEOUT_MESSAGE,
            [("human", message), ("assistant", TIMEOUT_MESSAGE)]⟩, fin)
        | RunOut.raised e =>
          (Except.ok ⟨false,
            generateErrorResponse env ("Agent execution error: " ++ e),
            [("human", message)]⟩, fin)
        | RunOut.cancelled => (Except.error (), fin)

/-- The MCP manager was acquired by this `invoke` call: initialization and
LLM-client creation succeeded and `_create_per_request_mcp_client` returned a
manager. -/
def mcpAcquired (env : Env) : Bool :=
  env.initError.isNone && env.llmOk && (createPerRequestMcpClient env).1

end Facade

/-! ## Claims C3, C4, C5, C10 — facade behavior -/

/-- C3: on every exit path of `invoke` — success, timeout, cancellation,
exception — the MCP cleanup routine of the `finally` block runs exactly once
when a manager was acquired and never otherwise; the cleanup outcome (success,
timeout, exception) never changes the value `invoke` returns; and when the
cleanup times out the task is cancelled (and the failure logged) rather than
raised. -/
theorem C3_cleanup_exactly_once_and_isolated :
    ∀ (env : Facade.Env) (m : String),
      ((Facade.invoke env m).2.count Facade.Ev.cleanupStart =
        if Facade.mcpAcquired env then 1 else 0)
      ∧ (∀ c : Facade.CleanOut,
          (Facade.invoke (Facade.setCleanup env c) m).1 = (Facade.invoke env m).1)
      ∧ (Facade.mcpAcquired env = true → env.cleanup = Facade.CleanOut.timedOut →
          Facade.Ev.cleanupCancelled ∈ (Facade.invoke env m).2) := by
  intro env m
  obtain ⟨i, l, mc, ag, r, eg, cl⟩ := env
  refine ⟨?_, ?_, ?_⟩
  · cases i <;> cases l <;> cases mc <;> cases ag <;> cases r <;> cases cl <;> rfl
  · intro c
    cases i <;> cases l <;> cases ag <;> cases r <;> rfl
  · intro h1 h2
    cases i with
    | some e => simp [Facade.mcpAcquired] at h1
    | none =>
      cases l with
      | false => simp [Facade.mcpAcquired] at h1
      | true =>
        cases mc with
        | noClient => simp [Facade.mcpAcquired, Facade.createPerRequestMcpClient] at h1
        | timedOut => simp [Facade.mcpAcquired, Facade.createPerRequestMcpClient] at h1
        | failed e => simp [Facade.mcpAcquired, Facade.createPerRequestMcpClient] at h1
        | ok tools =>
          cases h2
          cases ag <;> cases r <;>
            simp [Facade.invoke, Facade.createPerRequestMcpClient,
              Facade.cleanupPerRequestMcp]

/-- C3 witness: a concrete run in which the manager was acquired and cleanup
timed out: the cancellation is recorded in the trace. -/
theorem C3_cleanup_witness :
    Facade.Ev.cleanupCancelled ∈
      (Facade.invoke ⟨none, true, Facade.McpOut.ok ["get_file_contents"],
        Facade.AgentOut.built, Facade.RunOut.ok [], Facade.ErrGen.noLlm,
        Facade.CleanOut.timedOut⟩ "hi").2 :=
  (C3_cleanup_exactly_once_and_isolated ⟨none, true,
    Facade.McpOut.ok ["get_file_contents"], Facade.AgentOut.built,
    Facade.RunOut.ok [], Facade.ErrGen.noLlm, Facade.CleanOut.timedOut⟩ "hi").2.2
    rfl rfl

/-- C4: when MCP client creation times out or fails,
`_create_per_request_mcp_client` returns `(None, [])`, and `invoke` continues
to build and run the agent — with an otherwise successful environment the
response still has `success = true`. -/
theorem C4_mcp_failure_degrades_to_no_tools :
    ∀ (env : Facade.Env) (m : String) (msgs : List Facade.RMsg),
      (env.mcp = Facade.McpOut.timedOut ∨ ∃ e, env.mcp = Facade.McpOut.failed e) →
      Facade.createPerRequestMcpClient env = (false, [])
      ∧ (env.initError = none → env.llmOk = true →
          env.agent = Facade.AgentOut.built → env.run = Facade.RunOut.ok msgs →
          (Facade.invoke env m).1 =
            Except.ok ⟨true, Facade.extractFinal msgs, Facade.toHistory msgs⟩) := by
  intro env m msgs hmcp
  constructor
  · rcases hmcp with h | ⟨e, h⟩ <;> simp [Facade.createPerRequestMcpClient, h]
  · intro h1 h2 h3 h4
    simp [Facade.invoke, h1, h2, h3, h4]

/-- C4 witness: a concrete environment whose MCP initialization timed out
still produces a successful response. -/
theorem C4_mcp_failure_witness :
    Facade.createPerRequestMcpClient ⟨none, true, Facade.McpOut.timedOut,
        Facade.AgentOut.built, Facade.RunOut.ok [], Facade.ErrGen.noLlm,
        Facade.CleanOut.ok⟩ = (false, [])
    ∧ (Facade.invoke ⟨none, true, Facade.McpOut.timedOut, Facade.AgentOut.built,
        Facade.RunOut.ok [], Facade.ErrGen.noLlm, Facade.CleanOut.ok⟩ "q").1 =
      Except.ok ⟨true, Facade.extractFinal [], Facade.toHistory []⟩ := by
  have h := C4_mcp_failure_degrades_to_no_tools ⟨none, true, Facade.McpOut.timedOut,
    Facade.AgentOut.built, Facade.RunOut.ok [], Facade.ErrGen.noLlm,
    Facade.CleanOut.ok⟩ "q" [] (Or.inl rfl)
  exact ⟨h.1, h.2 rfl rfl rfl rfl⟩

/-- C5: when agent execution times out, `invoke` returns `success = false`
with the hardcoded message containing "timed out", and the history is exactly
the user message followed by one assistant message. -/
theorem C5_execution_timeout_response :
    ∀ (env : Facade.Env) (m : String),
      env.initError = none → env.llmOk = true →
      env.agent = Facade.AgentOut.built → env.run = Facade.RunOut.timedOut →
      (Facade.invoke env m).1 =
        Except.ok ⟨false, Facade.TIMEOUT_MESSAGE,
          [("human", m), ("assistant", Facade.TIMEOUT_MESSAGE)]⟩
      ∧ strContains Facade.TIMEOUT_MESSAGE "timed out" = true := by
  intro env m h1 h2 h3 h4
  refine ⟨?_, by decide⟩
  simp [Facade.invoke, h1, h2, h3, h4]

/-- C5 witness: a concrete timed-out run. -/
theorem C5_execution_timeout_witness :
    (Facade.invoke ⟨none, true, Facade.McpOut.noClient, Facade.AgentOut.built,
        Facade.RunOut.timedOut, Facade.ErrGen.noLlm, Facade.CleanOut.ok⟩ "hello").1 =
      Except.ok ⟨false, Facade.TIMEOUT_MESSAGE,
        [("human", "hello"), ("assistant", Facade.TIMEOUT_MESSAGE)]⟩ :=
  (C5_execution_timeout_response ⟨none, true, Facade.McpOut.noClient,
    Facade.AgentOut.built, Facade.RunOut.timedOut, Facade.ErrGen.noLlm,
    Facade.CleanOut.ok⟩ "hello" rfl rfl rfl rfl).1

/-- C10: whenever `invoke` returns a response with `success = false`, the
returned history is non-empty and starts with the pair ("human", m) for the
original user message m. -/
theorem C10_error_history_head_is_user_message :
    ∀ (env : Facade.Env) (m : String) (r : AgentResponse),
      (Facade.invoke env m).1 = Except.ok r → r.success = false →
      r.history.head? = some ("human", m) := by
  intro env m r hok hfail
  obtain ⟨i, l, mc, ag, rr, eg, cl⟩ := env
  cases i <;> cases l <;> cases ag <;> cases rr <;>
    simp [Facade.invoke] at hok <;>
    first
      | (rw [← hok]; rfl)
      | (rw [← hok] at hfail; simp at hfail)

/-- C10 witness: the timeout error path at a concrete input. -/
theorem C10_error_history_witness :
    (⟨false, Facade.TIMEOUT_MESSAGE,
        [("human", "hey"), ("assistant", Facade.TIMEOUT_MESSAGE)]⟩ :
      AgentResponse).history.head? = some ("human", "hey") :=
  C10_error_history_head_is_user_message
    ⟨none, true, Facade.McpOut.noClient, Facade.AgentOut.built,
      Facade.RunOut.timedOut, Facade.ErrGen.noLlm, Facade.CleanOut.ok⟩ "hey"
    ⟨false, Facade.TIMEOUT_MESSAGE,
      [("human", "hey"), ("assistant", Facade.TIMEOUT_MESSAGE)]⟩ rfl rfl
